import Mathlib

/-!
Shallow embedding of `src/main.py` (spinoff-agent): data contracts, the three
deterministic scoring rules, the confidence-weighted composer, the demo domain
hubs and the orchestration of `run`.

Modelling conventions:
* Python `float` values are modelled as `ℚ`.  Every numeric literal in the
  source is an exact decimal, and no comparison in the code distinguishes a
  decimal literal from its IEEE-754 rounding, so `ℚ` is a faithful model of
  the arithmetic the code performs.
* Python `dict` feature maps are association lists looked up with
  `List.lookup`; `dict.get(k, d)` is `(lookup k).getD d`.
* A Python function that can raise (`float`/`int` applied to a non-numeric
  string) is modelled with `Option`; `none` is a raised `ValueError`.
* `f"..."` formatting with `:.1f` / `:.0f` is modelled by `formatFixed`,
  which rounds the rational half-to-even at the requested number of decimals
  (the decimal core of CPython's fixed-point formatting).
-/

namespace SpinoffAgent

/-- A feature value: Python permits `float | int | bool | str` in the
`features` mapping of `FeatureSet`. -/
inductive Value where
  | vFloat : ℚ → Value
  | vInt : ℤ → Value
  | vBool : Bool → Value
  | vStr : String → Value
deriving DecidableEq, Repr

/-- `class CaseFile(BaseModel)` from the source. -/
structure CaseFile where
  company : String
  ticker : String
  announcement_date : Option String
deriving DecidableEq, Repr

/-- `class FeatureSet(BaseModel)` from the source: a domain tag, a feature
mapping, and provenance records (each a string-keyed mapping). -/
structure FeatureSet where
  domain : String
  features : List (String × Value)
  provenance : List (List (String × String))
deriving DecidableEq, Repr

/-- `class CriterionScore(BaseModel)` from the source. -/
structure CriterionScore where
  criterion : String
  score : ℚ
  confidence : ℚ
  rationale : String
  evidence_ids : List String
deriving DecidableEq, Repr

/-- Python `fs.features.get(k, d)`: dictionary lookup with a default. -/
def pyGet (fs : FeatureSet) (k : String) (d : Value) : Value :=
  (fs.features.lookup k).getD d

/-- Value of a list of decimal digit characters. -/
def digitsVal (cs : List Char) : ℕ :=
  cs.foldl (fun a c => 10 * a + (c.toNat - 48)) 0

/-- Parse an unsigned decimal number `digits[.digits]` or `.digits`
(the decimal core of what CPython's `float()` accepts; exponents,
`inf`/`nan` and digit underscores are outside the model). -/
def parseUnsignedDecimal (cs : List Char) : Option ℚ :=
  let ip := cs.takeWhile Char.isDigit
  let rest := cs.dropWhile Char.isDigit
  match rest with
  | [] => if ip.isEmpty then none else some (digitsVal ip)
  | '.' :: fp =>
      if fp.all Char.isDigit ∧ (ip ≠ [] ∨ fp ≠ []) then
        some ((digitsVal ip : ℚ) + (digitsVal fp : ℚ) / 10 ^ fp.length)
      else none
  | _ => none

/-- Strip leading and trailing whitespace from a character list (Python's
`float()`/`int()` strip whitespace before parsing). -/
def trimChars (cs : List Char) : List Char :=
  ((cs.dropWhile Char.isWhitespace).reverse.dropWhile Char.isWhitespace).reverse

/-- Python `float(s)` on a string: optional sign around an unsigned decimal,
whitespace stripped. `none` models a raised `ValueError`. -/
def pyFloatOfString (s : String) : Option ℚ :=
  match trimChars s.toList with
  | '+' :: rest => parseUnsignedDecimal rest
  | '-' :: rest => (parseUnsignedDecimal rest).map Neg.neg
  | cs => parseUnsignedDecimal cs

/-- Python `int(s)` on a string: optional sign and a nonempty digit run
(no decimal point allowed, unlike `float(s)`). -/
def pyIntOfString (s : String) : Option ℤ :=
  match trimChars s.toList with
  | '+' :: rest =>
      if rest ≠ [] ∧ rest.all Char.isDigit then some (digitsVal rest) else none
  | '-' :: rest =>
      if rest ≠ [] ∧ rest.all Char.isDigit then some (-(digitsVal rest : ℤ)) else none
  | cs => if cs ≠ [] ∧ cs.all Char.isDigit then some (digitsVal cs) else none

/-- Python `float(v)` on a feature value; `none` models `ValueError`. -/
def pyFloat : Value → Option ℚ
  | .vFloat q => some q
  | .vInt n => some (n : ℚ)
  | .vBool b => some (if b then 1 else 0)
  | .vStr s => pyFloatOfString s

/-- Python `int(v)` on a feature value (truncation toward zero on floats);
`none` models `ValueError`. -/
def pyInt : Value → Option ℤ
  | .vFloat q => some (q.num / (q.den : ℤ))
  | .vInt n => some n
  | .vBool b => some (if b then 1 else 0)
  | .vStr s => pyIntOfString s

/-- Round a rational to the nearest integer, ties to even (the rounding used
by fixed-point formatting). -/
def roundHalfEven (x : ℚ) : ℤ :=
  let n := ⌊x⌋
  let frac := x - (n : ℚ)
  if frac < 1 / 2 then n
  else if 1 / 2 < frac then n + 1
  else if n % 2 = 0 then n else n + 1

/-- Left-pad a string with zeros to the given length. -/
def padZeros (s : String) (len : ℕ) : String :=
  if len ≤ s.length then s
  else String.mk (List.replicate (len - s.length) '0') ++ s

/-- Model of Python fixed-point formatting `f"{q:.{prec}f}"` on exact
decimals: round half-to-even at `prec` decimal places and render. -/
def formatFixed (q : ℚ) (prec : ℕ) : String :=
  let scaled := roundHalfEven (q * (10 : ℚ) ^ prec)
  let sign := if scaled < 0 then "-" else ""
  let m := scaled.natAbs
  let ip := m / 10 ^ prec
  let fp := m % 10 ^ prec
  if prec = 0 then sign ++ toString ip
  else sign ++ toString ip ++ "." ++ padZeros (toString fp) prec

/-- The Debt Loading band table from `score_debt_loading`, as written in the
source: bands `nl ≤ 1.5`, `nl ≤ 3.0`, `nl > 3.0`; in the top band
`base = 4 if fcf_nd >= 20 else 3`, then overridden to 5 when `fcf_nd >= 30`. -/
def debtLoadingBase (nl fcf_nd : ℚ) : ℚ :=
  if nl ≤ 1.5 then 1
  else if nl ≤ 3.0 then 3
  else
    let base : ℚ := if fcf_nd ≥ 20 then 4 else 3
    if fcf_nd ≥ 30 then 5 else base

/-- `score_debt_loading` from the source.  `none` models the `ValueError`
raised when `float()` is applied to a non-numeric string feature. -/
def score_debt_loading (cap : FeatureSet) : Option CriterionScore :=
  match pyFloat (pyGet cap "net_leverage_turns" (.vInt 0)),
        pyFloat (pyGet cap "fcf_to_net_debt_pct" (.vInt 0)) with
  | some nl, some fcf_nd =>
      some { criterion := "Debt Loading"
             score := debtLoadingBase nl fcf_nd
             confidence := 0.75
             rationale := "Net leverage " ++ formatFixed nl 1
               ++ "x; FCF/NetDebt approx " ++ formatFixed fcf_nd 0
               ++ "% -> deleveraging plausible."
             evidence_ids := [] }
  | _, _ => none

/-- `score_index_exclusion` from the source. -/
def score_index_exclusion (micro : FeatureSet) : Option CriterionScore :=
  match pyInt (pyGet micro "russell_eligible" (.vInt 1)),
        pyFloat (pyGet micro "avg_daily_dollar_volume" (.vInt 0)) with
  | some russ, some adv =>
      if russ = 0 ∧ adv < 15000000 then
        some { criterion := "Index Exclusion", score := 5, confidence := 0.70
               rationale := "Likely excluded from major indices at spin; thin ADV increases forced selling risk."
               evidence_ids := [] }
      else if russ = 0 then
        some { criterion := "Index Exclusion", score := 4, confidence := 0.70
               rationale := "Likely excluded; liquidity somewhat offsets."
               evidence_ids := [] }
      else
        some { criterion := "Index Exclusion", score := 2, confidence := 0.70
               rationale := "Index eligible; less forced selling."
               evidence_ids := [] }
  | _, _ => none

/-- `score_equity_incentives` from the source.  Python truthiness of the
`perf` int is `perf ≠ 0`. -/
def score_equity_incentives (own : FeatureSet) : Option CriterionScore :=
  match pyFloat (pyGet own "mgmt_ownership_pct" (.vInt 0)),
        pyInt (pyGet own "perf_equity_present" (.vInt 0)) with
  | some pct, some perf =>
      let s : ℚ :=
        if pct ≥ 3 ∧ perf ≠ 0 then 5
        else if pct ≥ 1 ∧ perf ≠ 0 then 4
        else if pct ≥ 1 then 3
        else 2
      some { criterion := "Equity Incentives"
             score := s
             confidence := 0.80
             rationale := "Mgmt owns approx " ++ formatFixed pct 1 ++ "% "
               ++ (if perf ≠ 0 then "with" else "without") ++ " performance equity."
             evidence_ids := [] }
  | _, _ => none

/-- The `WEIGHTS` dict from the source. -/
def WEIGHTS : List (String × ℚ) :=
  [("Debt Loading", 1.3), ("Index Exclusion", 1.2), ("Equity Incentives", 1.5)]

/-- Body of the `for sc in scores` loop in `compose`: accumulate
`num += w * sc.score` and `den += w`. -/
def composeStep (p : ℚ × ℚ) (sc : CriterionScore) : ℚ × ℚ :=
  let w := ((WEIGHTS.lookup sc.criterion).getD 1.0) * (0.5 + 0.5 * sc.confidence)
  (p.1 + w * sc.score, p.2 + w)

/-- `compose` from the source: confidence-discounted weighted mean, `0.0`
when the accumulated denominator is falsy (zero). -/
def compose (scores : List CriterionScore) : ℚ × List CriterionScore :=
  let nd := scores.foldl composeStep (0, 0)
  (if nd.2 ≠ 0 then nd.1 / nd.2 else 0, scores)

/-- The fixed `FeatureSet` returned by `capital_structure_hub` in the source
(the demo hub bodies are pure after the sleep). -/
def capital_structure_hub : FeatureSet :=
  { domain := "capital_structure"
    features := [("net_leverage_turns", .vFloat 3.2),
                 ("fcf_to_net_debt_pct", .vInt 22),
                 ("special_dividend_flag", .vBool true)]
    provenance := [[("feature", "net_leverage_turns"), ("url", "https://example.com/press")]] }

/-- The fixed `FeatureSet` returned by `ownership_hub` in the source. -/
def ownership_hub : FeatureSet :=
  { domain := "ownership"
    features := [("mgmt_ownership_pct", .vFloat 2.1),
                 ("perf_equity_present", .vInt 1)]
    provenance := [] }

/-- The fixed `FeatureSet` returned by `microstructure_hub` in the source. -/
def microstructure_hub : FeatureSet :=
  { domain := "microstructure"
    features := [("free_float_pct", .vInt 65),
                 ("russell_eligible", .vInt 0),
                 ("avg_daily_dollar_volume", .vInt 12000000)]
    provenance := [] }

/-- The fixed `FeatureSet` returned by `ops_hub` in the source. -/
def ops_hub : FeatureSet :=
  { domain := "ops"
    features := [("ebitda_margin_pct", .vInt 14),
                 ("customer_conc_top5_pct", .vInt 38)]
    provenance := [] }

/-- The orchestration of `run` from the source, as a function of the four hub
outcomes.  `await asyncio.gather(...)` without `return_exceptions` re-raises
the first exception out of `run` (determinized here by argument position);
only when all four hubs succeed do the scorer tasks run, and a scorer raising
in its thread likewise propagates out of the surrounding `gather`.  On full
success `run` composes the scores; the returned pair is the composite and the
score list in scorer declaration order. -/
def run (cap own micro ops : Except String FeatureSet) :
    Except String (ℚ × List CriterionScore) :=
  match cap, own, micro, ops with
  | .ok c, .ok o, .ok m, .ok _ =>
      match score_debt_loading c, score_index_exclusion m, score_equity_incentives o with
      | some s1, some s2, some s3 => .ok ((compose [s1, s2, s3]).1, [s1, s2, s3])
      | _, _, _ => .error "ValueError"
  | .error e, _, _, _ => .error e
  | _, .error e, _, _ => .error e
  | _, _, .error e, _ => .error e
  | _, _, _, .error e => .error e

/-- `asyncio.gather`'s result buffer: results of completed tasks are written
into the slot of the task's argument position, whatever order completions
arrive in (`order` is the completion order, a permutation of the task
indices); the buffer is returned in argument-position order. -/
def gatherFill {α : Type} (tasks : List α) (order : List ℕ) : List (Option α) :=
  order.foldl (fun acc i => acc.set i tasks[i]?) (List.replicate tasks.length none)

/-- The three scorer tasks the source passes to `asyncio.gather`, in
declaration order: Debt Loading, Index Exclusion, Equity Incentives. -/
def scoreTasks (cap micro own : FeatureSet) : List (Option CriterionScore) :=
  [score_debt_loading cap, score_index_exclusion micro, score_equity_incentives own]

/-- Modelled from the spec (§4.3), for comparison with `compose`: the
effective weight of a score is `base_weight × (0.5 + 0.5 × confidence)`,
where an unlisted criterion's base weight is 1.0. -/
def effectiveWeight (sc : CriterionScore) : ℚ :=
  ((WEIGHTS.lookup sc.criterion).getD 1.0) * (0.5 + 0.5 * sc.confidence)

/-- Modelled from the spec (§4.3), for comparison with `compose`:
`Composite = (Σ effective_weight × score) / (Σ effective_weight)`. -/
def composeSpec (scores : List CriterionScore) : ℚ :=
  (scores.map fun sc => effectiveWeight sc * sc.score).sum
    / (scores.map effectiveWeight).sum

/-- The band classification implicit in `score_debt_loading`'s branch
structure: `nl ≤ 1.5`, `1.5 < nl ≤ 3.0`, `nl > 3.0`. -/
def leverageBand (nl : ℚ) : ℕ :=
  if nl ≤ 1.5 then 0 else if nl ≤ 3.0 then 1 else 2

/-- A capital-structure `FeatureSet` carrying the two features
`score_debt_loading` reads, as float values. -/
def capFS (nl fcf : ℚ) : FeatureSet :=
  { domain := "capital_structure"
    features := [("net_leverage_turns", .vFloat nl), ("fcf_to_net_debt_pct", .vFloat fcf)]
    provenance := [] }

/-- A feature value on which both Python conversions `float(v)` and `int(v)`
succeed (every non-string value, and integer-literal strings). -/
def NumericValue (v : Value) : Prop :=
  (pyFloat v).isSome ∧ (pyInt v).isSome

instance decidableNumericValue (v : Value) : Decidable (NumericValue v) :=
  inferInstanceAs (Decidable ((pyFloat v).isSome ∧ (pyInt v).isSome))

/-! ## Shared lemmas -/

/-- A successful association-list lookup exhibits a member of the list. -/
theorem lookup_mem {α β : Type} [BEq α] [LawfulBEq α] {l : List (α × β)} {k : α} {v : β}
    (h : l.lookup k = some v) : (k, v) ∈ l := by
  induction l with
  | nil => simp [List.lookup] at h
  | cons p rest ih =>
    obtain ⟨a, b⟩ := p
    rw [List.lookup] at h
    cases hb : (k == a) with
    | true =>
        rw [hb] at h
        simp only [Option.some.injEq] at h
        exact List.mem_cons.mpr (Or.inl (Prod.ext (beq_iff_eq.mp hb) h.symm))
    | false =>
        rw [hb] at h
        exact List.mem_cons.mpr (Or.inr (ih h))

/-- Evaluation of `score_debt_loading` through the parsed feature values. -/
theorem sdl_score (cap : FeatureSet) (nl fcf : ℚ)
    (h1 : pyFloat (pyGet cap "net_leverage_turns" (.vInt 0)) = some nl)
    (h2 : pyFloat (pyGet cap "fcf_to_net_debt_pct" (.vInt 0)) = some fcf) :
    (score_debt_loading cap).map CriterionScore.score = some (debtLoadingBase nl fcf) := by
  simp [score_debt_loading, h1, h2]

/-- Evaluation of `score_index_exclusion` through the parsed feature values. -/
theorem sie_score (micro : FeatureSet) (russ : ℤ) (adv : ℚ)
    (h1 : pyInt (pyGet micro "russell_eligible" (.vInt 1)) = some russ)
    (h2 : pyFloat (pyGet micro "avg_daily_dollar_volume" (.vInt 0)) = some adv) :
    (score_index_exclusion micro).map CriterionScore.score =
      some (if russ = 0 ∧ adv < 15000000 then 5 else if russ = 0 then 4 else 2) := by
  simp only [score_index_exclusion, h1, h2]
  split_ifs <;> simp

/-- Evaluation of `score_equity_incentives` through the parsed feature values. -/
theorem sei_score (own : FeatureSet) (pct : ℚ) (perf : ℤ)
    (h1 : pyFloat (pyGet own "mgmt_ownership_pct" (.vInt 0)) = some pct)
    (h2 : pyInt (pyGet own "perf_equity_present" (.vInt 0)) = some perf) :
    (score_equity_incentives own).map CriterionScore.score =
      some (if pct ≥ 3 ∧ perf ≠ 0 then 5 else if pct ≥ 1 ∧ perf ≠ 0 then 4
            else if pct ≥ 1 then 3 else 2) := by
  simp only [score_equity_incentives, h1, h2]
  split_ifs <;> simp

/-- If every feature value of `fs` is numeric, both Python conversions succeed
on any `fs.features.get(k, intDefault)`. -/
theorem pyGet_numeric {fs : FeatureSet} (h : ∀ p ∈ fs.features, NumericValue p.2)
    (k : String) (d : ℤ) :
    (pyFloat (pyGet fs k (.vInt d))).isSome = true ∧
      (pyInt (pyGet fs k (.vInt d))).isSome = true := by
  unfold pyGet
  cases hlk : fs.features.lookup k with
  | none => simp [pyFloat, pyInt]
  | some v =>
      have hv := h (k, v) (lookup_mem hlk)
      simpa [NumericValue] using hv

/-- The Debt Loading band value is bounded by 1 and 5 for all inputs. -/
theorem debtLoadingBase_bounds (nl fcf : ℚ) :
    1 ≤ debtLoadingBase nl fcf ∧ debtLoadingBase nl fcf ≤ 5 := by
  simp only [debtLoadingBase]
  split_ifs <;> norm_num

/-- Within one leverage band the Debt Loading value does not depend on the
exact leverage. -/
theorem debtLoadingBase_band_eq {nl₁ nl₂ : ℚ} (fcf : ℚ)
    (h : leverageBand nl₁ = leverageBand nl₂) :
    debtLoadingBase nl₁ fcf = debtLoadingBase nl₂ fcf := by
  simp only [leverageBand] at h
  simp only [debtLoadingBase]
  split_ifs at h ⊢ <;> simp_all

/-- The accumulator loop of `compose` computes the two sums of the spec's
weighted-mean formula. -/
theorem foldl_composeStep (scores : List CriterionScore) (a b : ℚ) :
    scores.foldl composeStep (a, b) =
      (a + (scores.map fun sc => effectiveWeight sc * sc.score).sum,
       b + (scores.map effectiveWeight).sum) := by
  induction scores generalizing a b with
  | nil => simp
  | cons sc rest ih =>
      simp only [List.foldl_cons, List.map_cons, List.sum_cons, ih]
      simp only [composeStep, effectiveWeight, Prod.mk.injEq]
      constructor <;> ring

/-- A criterion name that is not a key of `WEIGHTS` looks up to `none`. -/
theorem lookup_none_of_not_key {name : String} (h : name ∉ WEIGHTS.map Prod.fst) :
    WEIGHTS.lookup name = none := by
  simp only [WEIGHTS, List.map_cons, List.map_nil, List.mem_cons, List.mem_singleton] at h
  push_neg at h
  obtain ⟨h1, h2, h3, -⟩ := h
  simp [List.lookup, WEIGHTS, beq_eq_false_iff_ne.mpr h1, beq_eq_false_iff_ne.mpr h2,
    beq_eq_false_iff_ne.mpr h3]

/-- One slot of the gather buffer after processing completions: the slot
holds the task's value once its index has appeared in the completion order,
whatever else was processed and in whatever order. -/
theorem gatherFill_foldl_getElem {α : Type} (tasks : List α) (order : List ℕ)
    (acc : List (Option α)) (j : ℕ) (hj : j < acc.length) :
    (order.foldl (fun acc i => acc.set i tasks[i]?) acc)[j]? =
      if j ∈ order then some tasks[j]? else acc[j]? := by
  induction order generalizing acc with
  | nil => simp
  | cons i rest ih =>
      rw [List.foldl_cons]
      rw [ih (acc.set i tasks[i]?) (by simpa using hj)]
      by_cases hr : j ∈ rest
      · simp [hr, List.mem_cons]
      · by_cases hij : i = j
        · subst hij
          simp [hr, List.getElem?_set, hj]
        · simp [hr, List.getElem?_set, hij, List.mem_cons, Ne.symm hij]

/-- The gather fold preserves the buffer length. -/
theorem gatherFill_foldl_length {α : Type} (tasks : List α) (order : List ℕ)
    (acc : List (Option α)) :
    (order.foldl (fun acc i => acc.set i tasks[i]?) acc).length = acc.length := by
  induction order generalizing acc with
  | nil => rfl
  | cons i rest ih => rw [List.foldl_cons, ih, List.length_set]

/-- If the completion order covers every task index, the gather buffer ends
up holding every task's value in argument-position order. -/
theorem gatherFill_eq_map_some {α : Type} (tasks : List α) (order : List ℕ)
    (h : ∀ i < tasks.length, i ∈ order) :
    gatherFill tasks order = tasks.map some := by
  apply List.ext_getElem?
  intro j
  by_cases hj : j < tasks.length
  · rw [gatherFill, gatherFill_foldl_getElem tasks order _ j (by simpa using hj)]
    simp [h j hj, List.getElem?_eq_getElem hj]
  · have h1 : (gatherFill tasks order).length = tasks.length := by
      rw [gatherFill, gatherFill_foldl_length, List.length_replicate]
    rw [List.getElem?_eq_none (by omega), List.getElem?_eq_none (by simp; omega)]

/-! ## Claim theorems -/

/-- C1 counterexample: on the capital-structure features
`net_leverage_turns=3.2`, `fcf_to_net_debt_pct=22` (the demo hub's exact
feature set), `score_debt_loading` does not return score 3. -/
theorem debt_loading_demo_not_three :
    (score_debt_loading capital_structure_hub).map CriterionScore.score ≠ some 3 := by
  rw [sdl_score capital_structure_hub 3.2 22 rfl rfl]
  norm_num [debtLoadingBase]

/-- C1 (amended): for a capital-structure FeatureSet with
`net_leverage_turns=3.2` and `fcf_to_net_debt_pct=22`, `score_debt_loading`
returns a CriterionScore with score = 4: leverage is in the `> 3.0` band and
the FCF ratio is at/above the 20% threshold (and below the 30% threshold
that would escalate to 5). -/
theorem debt_loading_demo_score_four :
    (score_debt_loading capital_structure_hub).map CriterionScore.score = some 4 := by
  rw [sdl_score capital_structure_hub 3.2 22 rfl rfl]
  norm_num [debtLoadingBase]

/-- C2 counterexample: when the capital-structure provider fails with
`DataUnavailable` while the ownership, microstructure and ops providers all
succeed, `run` surfaces the bare provider exception: no aggregate error
naming the missing domain is built and no CriterionScores are reported
alongside it, even though Index Exclusion and Equity Incentives could have
been scored from the domains that did resolve. -/
theorem run_provider_failure_yields_bare_error :
    run (.error "DataUnavailable") (.ok ownership_hub) (.ok microstructure_hub)
        (.ok ops_hub) = .error "DataUnavailable" := rfl

/-- C2 (amended): if any one FeatureSet provider fails, `asyncio.gather`
re-raises that provider's exception out of `run`: no scorer runs, no
CriterionScores are reported, and the surfaced error is the provider's own
exception rather than a `PipelineError` naming the missing domain(s). -/
theorem run_propagates_provider_error (e : String)
    (own micro ops : Except String FeatureSet) :
    run (.error e) own micro ops = .error e := by
  cases own <;> cases micro <;> cases ops <;> rfl

/-- C3 counterexample: a syntactically valid FeatureSet (string keys to
float/int/bool/string values) on which a scorer raises: `float("n/a")`
raises `ValueError` inside `score_debt_loading`. -/
theorem score_debt_loading_raises_on_string :
    score_debt_loading { domain := "capital_structure",
                         features := [("net_leverage_turns", Value.vStr "n/a")],
                         provenance := [] } = none := by decide

/-- C3 (amended): each Criterion Scorer succeeds and returns a
CriterionScore on every FeatureSet whose feature values are numeric
(float/int/bool, or strings accepted by both `float()` and `int()`); absent
features are treated via the documented defaults, in particular an absent
`net_leverage_turns` is scored exactly as the explicit value 0. -/
theorem scorers_total_on_numeric_features (fs : FeatureSet)
    (h : ∀ p ∈ fs.features, NumericValue p.2) :
    (score_debt_loading fs).isSome = true ∧
    (score_index_exclusion fs).isSome = true ∧
    (score_equity_incentives fs).isSome = true ∧
    (fs.features.lookup "net_leverage_turns" = none →
      score_debt_loading fs =
        score_debt_loading { domain := fs.domain,
                             features := ("net_leverage_turns", Value.vInt 0) :: fs.features,
                             provenance := fs.provenance }) := by
  obtain ⟨hnlF, -⟩ := pyGet_numeric h "net_leverage_turns" 0
  obtain ⟨hfcF, -⟩ := pyGet_numeric h "fcf_to_net_debt_pct" 0
  obtain ⟨-, hruI⟩ := pyGet_numeric h "russell_eligible" 1
  obtain ⟨havF, -⟩ := pyGet_numeric h "avg_daily_dollar_volume" 0
  obtain ⟨hpcF, -⟩ := pyGet_numeric h "mgmt_ownership_pct" 0
  obtain ⟨-, hpeI⟩ := pyGet_numeric h "perf_equity_present" 0
  obtain ⟨nl, hnl⟩ := Option.isSome_iff_exists.mp hnlF
  obtain ⟨fcf, hfc⟩ := Option.isSome_iff_exists.mp hfcF
  obtain ⟨russ, hru⟩ := Option.isSome_iff_exists.mp hruI
  obtain ⟨adv, hav⟩ := Option.isSome_iff_exists.mp havF
  obtain ⟨pct, hpc⟩ := Option.isSome_iff_exists.mp hpcF
  obtain ⟨perf, hpe⟩ := Option.isSome_iff_exists.mp hpeI
  refine ⟨?_, ?_, ?_, ?_⟩
  · simp [score_debt_loading, hnl, hfc]
  · simp only [score_index_exclusion, hru, hav]
    split_ifs <;> simp
  · simp [score_equity_incentives, hpc, hpe]
  · intro hnone
    have e1 : pyGet fs "net_leverage_turns" (.vInt 0) = Value.vInt 0 := by
      simp [pyGet, hnone]
    have e2 : pyGet { domain := fs.domain,
                      features := ("net_leverage_turns", Value.vInt 0) :: fs.features,
                      provenance := fs.provenance } "net_leverage_turns" (.vInt 0) =
        Value.vInt 0 := rfl
    have e3 : pyGet { domain := fs.domain,
                      features := ("net_leverage_turns", Value.vInt 0) :: fs.features,
                      provenance := fs.provenance } "fcf_to_net_debt_pct" (.vInt 0) =
        pyGet fs "fcf_to_net_debt_pct" (.vInt 0) := by
      simp only [pyGet]
      congr 1
    simp only [score_debt_loading, e1, e2, e3]

/-- C3 witness: the hypotheses of `scorers_total_on_numeric_features` hold at
the ownership hub's concrete feature set. -/
theorem scorers_total_on_numeric_features_witness :
    (score_debt_loading ownership_hub).isSome = true ∧
    (score_index_exclusion ownership_hub).isSome = true ∧
    (score_equity_incentives ownership_hub).isSome = true ∧
    (ownership_hub.features.lookup "net_leverage_turns" = none →
      score_debt_loading ownership_hub =
        score_debt_loading { domain := ownership_hub.domain,
                             features := ("net_leverage_turns", Value.vInt 0) :: ownership_hub.features,
                             provenance := ownership_hub.provenance }) :=
  scorers_total_on_numeric_features ownership_hub (by decide)

/-- An effective weight is strictly positive whenever the confidence is
nonnegative: every base weight in the table (and the 1.0 default) is
positive, and the confidence factor is at least 0.5. -/
theorem effectiveWeight_pos (sc : CriterionScore) (h : 0 ≤ sc.confidence) :
    0 < effectiveWeight sc := by
  unfold effectiveWeight
  have hbase : 0 < ((WEIGHTS.lookup sc.criterion).getD 1.0 : ℚ) := by
    cases hl : WEIGHTS.lookup sc.criterion with
    | none => norm_num
    | some v =>
        have hm := lookup_mem hl
        simp only [WEIGHTS, List.mem_cons, List.mem_singleton, List.not_mem_nil,
          Prod.mk.injEq] at hm
        rcases hm with ⟨-, rfl⟩ | ⟨-, rfl⟩ | ⟨-, rfl⟩ | hfalse
        · norm_num
        · norm_num
        · norm_num
        · exact absurd hfalse not_false
  have hfac : (0 : ℚ) < 0.5 + 0.5 * sc.confidence := by nlinarith
  exact mul_pos hbase hfac

/-- C4: for every nonempty list of CriterionScores with in-range
(nonnegative) confidences, `compose` returns the weighted arithmetic mean
`(Σ effective_weight × score) / (Σ effective_weight)` with effective weight
`base_weight × (0.5 + 0.5 × confidence)`, and any criterion name not listed
in the weight table gets base weight exactly 1.0. -/
theorem compose_weighted_mean (scores : List CriterionScore)
    (hne : scores ≠ [])
    (hconf : ∀ sc ∈ scores, 0 ≤ sc.confidence) :
    (compose scores).1 = composeSpec scores ∧
    ∀ name : String, name ∉ WEIGHTS.map Prod.fst →
      ((WEIGHTS.lookup name).getD 1.0 : ℚ) = 1 := by
  have hsum : 0 < (scores.map effectiveWeight).sum := by
    refine List.sum_pos _ ?_ ?_
    · intro x hx
      obtain ⟨sc, hsc, rfl⟩ := List.mem_map.mp hx
      exact effectiveWeight_pos sc (hconf sc hsc)
    · simpa using hne
  constructor
  · simp only [compose, foldl_composeStep, zero_add, composeSpec]
    rw [if_pos hsum.ne']
  · intro name hname
    rw [lookup_none_of_not_key hname]
    norm_num

/-- C4 witness: the weighted-mean equation instantiated at a synthetic
criterion absent from the weight table. -/
theorem compose_weighted_mean_witness :
    (compose [⟨"Synthetic", 3, 1, "r", []⟩]).1 = composeSpec [⟨"Synthetic", 3, 1, "r", []⟩] ∧
    ("Synthetic" ∉ WEIGHTS.map Prod.fst →
      ((WEIGHTS.lookup "Synthetic").getD 1.0 : ℚ) = 1) := by
  have h := compose_weighted_mean [⟨"Synthetic", 3, 1, "r", []⟩] (by simp)
    (by intro sc hsc; simp only [List.mem_singleton] at hsc; subst hsc; norm_num)
  exact ⟨h.1, h.2 "Synthetic"⟩

/-- C5: `compose` applied to the empty collection returns composite score 0
(and echoes the empty score list) without failing. -/
theorem compose_empty_zero : compose [] = (0, []) := rfl

/-- C6: the Debt Loading score is monotonically non-decreasing in the net
leverage within each leverage band, and every CriterionScore the scorer
returns has score in the closed range [1, 5]. -/
theorem debt_loading_monotone_bounded :
    (∀ nl₁ nl₂ fcf : ℚ, leverageBand nl₁ = leverageBand nl₂ → nl₁ ≤ nl₂ →
      ∀ c₁ c₂ : CriterionScore,
        score_debt_loading (capFS nl₁ fcf) = some c₁ →
        score_debt_loading (capFS nl₂ fcf) = some c₂ → c₁.score ≤ c₂.score) ∧
    ∀ fs : FeatureSet, ∀ c : CriterionScore,
      score_debt_loading fs = some c → 1 ≤ c.score ∧ c.score ≤ 5 := by
  constructor
  · intro nl₁ nl₂ fcf hband _ c₁ c₂ h₁ h₂
    have e₁ := sdl_score (capFS nl₁ fcf) nl₁ fcf rfl rfl
    have e₂ := sdl_score (capFS nl₂ fcf) nl₂ fcf rfl rfl
    rw [h₁, Option.map_some'] at e₁
    rw [h₂, Option.map_some'] at e₂
    simp only [Option.some.injEq] at e₁ e₂
    rw [e₁, e₂, debtLoadingBase_band_eq fcf hband]
  · intro fs c hc
    cases h1 : pyFloat (pyGet fs "net_leverage_turns" (.vInt 0)) with
    | none => simp [score_debt_loading, h1] at hc
    | some nl =>
        cases h2 : pyFloat (pyGet fs "fcf_to_net_debt_pct" (.vInt 0)) with
        | none => simp [score_debt_loading, h1, h2] at hc
        | some fcf =>
            simp only [score_debt_loading, h1, h2, Option.some.injEq] at hc
            rw [← hc]
            exact debtLoadingBase_bounds nl fcf

/-- C6 witness: monotonicity and bounds instantiated inside the lowest band
at leverages 1 and 1.2. -/
theorem debt_loading_monotone_bounded_witness :
    ∃ c₁ c₂ : CriterionScore,
      score_debt_loading (capFS 1 0) = some c₁ ∧
      score_debt_loading (capFS 1.2 0) = some c₂ ∧
      c₁.score ≤ c₂.score ∧ 1 ≤ c₁.score ∧ c₁.score ≤ 5 := by
  obtain ⟨c₁, hc₁, -⟩ := Option.map_eq_some'.mp (sdl_score (capFS 1 0) 1 0 rfl rfl)
  obtain ⟨c₂, hc₂, -⟩ := Option.map_eq_some'.mp (sdl_score (capFS 1.2 0) 1.2 0 rfl rfl)
  refine ⟨c₁, c₂, hc₁, hc₂, ?_, ?_, ?_⟩
  · exact debt_loading_monotone_bounded.1 1 1.2 0 (by norm_num [leverageBand])
      (by norm_num) c₁ c₂ hc₁ hc₂
  · exact (debt_loading_monotone_bounded.2 (capFS 1 0) c₁ hc₁).1
  · exact (debt_loading_monotone_bounded.2 (capFS 1 0) c₁ hc₁).2

/-- C7: every Criterion Scorer is deterministic and reads its FeatureSet
only through feature lookups: two FeatureSets whose feature mappings agree
on every key produce identical CriterionScores, rationale text included. -/
theorem scorers_deterministic (fs₁ fs₂ : FeatureSet)
    (h : ∀ k : String, fs₁.features.lookup k = fs₂.features.lookup k) :
    score_debt_loading fs₁ = score_debt_loading fs₂ ∧
    score_index_exclusion fs₁ = score_index_exclusion fs₂ ∧
    score_equity_incentives fs₁ = score_equity_incentives fs₂ := by
  refine ⟨?_, ?_, ?_⟩ <;>
    simp only [score_debt_loading, score_index_exclusion, score_equity_incentives, pyGet, h]

/-- C7 witness: the determinism contract instantiated at the microstructure
hub's feature set and a reordered copy with equal feature values. -/
theorem scorers_deterministic_witness :
    score_debt_loading microstructure_hub =
      score_debt_loading { domain := "microstructure",
                           features := [("russell_eligible", Value.vInt 0),
                                        ("avg_daily_dollar_volume", Value.vInt 12000000),
                                        ("free_float_pct", Value.vInt 65)],
                           provenance := [] } ∧
    score_index_exclusion microstructure_hub =
      score_index_exclusion { domain := "microstructure",
                              features := [("russell_eligible", Value.vInt 0),
                                           ("avg_daily_dollar_volume", Value.vInt 12000000),
                                           ("free_float_pct", Value.vInt 65)],
                              provenance := [] } ∧
    score_equity_incentives microstructure_hub =
      score_equity_incentives { domain := "microstructure",
                                features := [("russell_eligible", Value.vInt 0),
                                             ("avg_daily_dollar_volume", Value.vInt 12000000),
                                             ("free_float_pct", Value.vInt 65)],
                                provenance := [] } := by
  refine scorers_deterministic _ _ ?_
  intro k
  by_cases h1 : k = "free_float_pct"
  · subst h1; rfl
  · by_cases h2 : k = "russell_eligible"
    · subst h2; rfl
    · by_cases h3 : k = "avg_daily_dollar_volume"
      · subst h3; rfl
      · simp [microstructure_hub, List.lookup, beq_eq_false_iff_ne.mpr h1,
          beq_eq_false_iff_ne.mpr h2, beq_eq_false_iff_ne.mpr h3]

/-- C8: on a microstructure FeatureSet with `russell_eligible=0` and
`avg_daily_dollar_volume=12,000,000` (below the 15,000,000 liquidity
threshold) — the demo hub's exact feature set — `score_index_exclusion`
returns score = 5. -/
theorem index_exclusion_demo_score_five :
    (score_index_exclusion microstructure_hub).map CriterionScore.score = some 5 := by
  rw [sie_score microstructure_hub 0 12000000 rfl rfl]
  norm_num

/-- C9: whatever completion order the three concurrent scorer tasks finish
in (as long as every task completes), the gathered CriterionScore sequence
is in the fixed declaration order Debt Loading, Index Exclusion, Equity
Incentives. -/
theorem gather_scores_declaration_order (cap micro own : FeatureSet)
    (order : List ℕ) (h : ∀ i < 3, i ∈ order) :
    gatherFill (scoreTasks cap micro own) order =
      (scoreTasks cap micro own).map some :=
  gatherFill_eq_map_some _ _ (by intro i hi; exact h i (by simpa [scoreTasks] using hi))

/-- C9 witness: the ordering guarantee at the demo hubs with completion
order Equity Incentives, Debt Loading, Index Exclusion. -/
theorem gather_scores_declaration_order_witness :
    gatherFill (scoreTasks capital_structure_hub microstructure_hub ownership_hub)
        [2, 0, 1] =
      (scoreTasks capital_structure_hub microstructure_hub ownership_hub).map some :=
  gather_scores_declaration_order _ _ _ [2, 0, 1] (by decide)

/-- C10: when `russell_eligible` is absent from the microstructure
FeatureSet, `score_index_exclusion` defaults it to 1 (index-eligible), the
opposite polarity of the other defaults, so the returned score is always the
minimum 2 regardless of `avg_daily_dollar_volume` — never the forced-selling
maximum of 5. -/
theorem index_exclusion_absent_russell_score_two (fs : FeatureSet)
    (c : CriterionScore)
    (hnone : fs.features.lookup "russell_eligible" = none)
    (hc : score_index_exclusion fs = some c) :
    pyInt (pyGet fs "russell_eligible" (.vInt 1)) = some 1 ∧ c.score = 2 := by
  have hr : pyInt (pyGet fs "russell_eligible" (.vInt 1)) = some 1 := by
    simp [pyGet, hnone, pyInt]
  refine ⟨hr, ?_⟩
  cases h2 : pyFloat (pyGet fs "avg_daily_dollar_volume" (.vInt 0)) with
  | none => simp [score_index_exclusion, hr, h2] at hc
  | some adv =>
      have he := sie_score fs 1 adv hr h2
      rw [hc, Option.map_some'] at he
      simp only [Option.some.injEq] at he
      rw [he]
      norm_num

/-- C10 witness: a microstructure FeatureSet missing `russell_eligible` but
with the demo's thin dollar volume still scores 2, not 5. -/
theorem index_exclusion_absent_russell_score_two_witness :
    ∃ c : CriterionScore,
      score_index_exclusion { domain := "microstructure",
                              features := [("avg_daily_dollar_volume", Value.vInt 12000000)],
                              provenance := [] } = some c ∧
      pyInt (pyGet { domain := "microstructure",
                     features := [("avg_daily_dollar_volume", Value.vInt 12000000)],
                     provenance := [] } "russell_eligible" (.vInt 1)) = some 1 ∧
      c.score = 2 := by
  obtain ⟨c, hc, -⟩ := Option.map_eq_some'.mp
    (sie_score { domain := "microstructure",
                 features := [("avg_daily_dollar_volume", Value.vInt 12000000)],
                 provenance := [] } 1 12000000 rfl rfl)
  obtain ⟨hdef, hsc⟩ := index_exclusion_absent_russell_score_two
    { domain := "microstructure",
      features := [("avg_daily_dollar_volume", Value.vInt 12000000)],
      provenance := [] } c rfl hc
  exact ⟨c, hc, hdef, hsc⟩

end SpinoffAgent
